import Mathlib

/-!
Shallow embedding of the Slack shared library (`Slack.js`) from the
xmatters/xm-labs-slack repository, together with theorems settling the
frozen claims about its behaviour.

Modelling conventions:

* The remote Slack API is modelled as a *script* of responses: a list whose
  k-th element is the body the k-th issued listing request would receive.
  The `Nat` component returned by a paginated operation counts the listing
  requests actually issued, i.e. the pages consumed from the script.
  An operation returns `none` at the outermost `Option` layer when the
  script is too short for the run to complete (a model artifact, excluded
  by hypothesis in the theorems) or, where noted, when the JavaScript
  would throw (`getUserInfo` reading `next_cursor` off an absent
  `response_metadata`).
* JavaScript strings appear at two levels.  The name-matching machinery
  models them as Lean `String`s with a character-wise ASCII `toLowerCase`
  (`jsToLowerChar`); the matching claims depend on the lower-casing only
  through which names compare equal.  The channel-name canonicalization is
  additionally modelled at the UTF-16 code-unit level (`canonicalizeUnits`),
  where `slice(0, 21)` counts units and `toLowerCase` can expand U+0130 to
  the two units i + U+0307 as ECMAScript does; the claims about the
  canonicalization itself are settled at that level, and the two levels
  agree on ASCII names (`canonicalize_agrees_on_ascii`).
* Absent (`undefined`) JSON fields are modelled with `Option`, `none`
  standing for an absent field; JavaScript truthiness of an optional
  string is `some s` with `s` nonempty.
-/

/-- Character codes matched by the JavaScript regular-expression class
`\s` (whitespace), as used in `replace(/\s+/g, '-')`. -/
def isWsCode (n : Nat) : Bool :=
  n == 9 || n == 10 || n == 11 || n == 12 || n == 13 || n == 32 || n == 160 ||
  n == 0x1680 || (0x2000 ≤ n && n ≤ 0x200a) || n == 0x2028 || n == 0x2029 ||
  n == 0x202f || n == 0x205f || n == 0x3000 || n == 0xfeff

/-- Whitespace test on characters (JavaScript `\s`). -/
def isWsJS (c : Char) : Bool := isWsCode c.toNat

/-- ASCII upper-case letter test, the range `toLowerCase` acts on in this
model. -/
def isUpperA (c : Char) : Bool := 65 ≤ c.toNat && c.toNat ≤ 90

/-- Character-wise ASCII fragment of JavaScript
`String.prototype.toLowerCase`: maps `A`–`Z` to `a`–`z` and leaves every
other character unchanged.  This is the lower-casing used by the
name-matching model; the full mapping, including the expanding case of
U+0130, is modelled at the UTF-16 unit level by `jsLowerUnit` below, and
the two agree on ASCII strings (`canonicalize_agrees_on_ascii`). -/
def jsToLowerChar (c : Char) : Char :=
  if isUpperA c then Char.ofNat (c.toNat + 32) else c

/-- Model of `s.toLowerCase()`. -/
def jsLowerStr (s : String) : String := String.mk (s.data.map jsToLowerChar)

/-- Model of `replace(/\s+/g, '-')` on a character list: every maximal run
of whitespace characters is replaced by a single hyphen.  The boolean flag
records whether the previous character was part of a whitespace run. -/
def collapseWsAux : Bool → List Char → List Char
  | _, [] => []
  | prevWs, c :: cs =>
    if isWsJS c then
      (if prevWs then collapseWsAux true cs else '-' :: collapseWsAux true cs)
    else c :: collapseWsAux false cs

/-- `var MAX_CHANNEL_NAME_LENGTH = 21;` from `Slack.js`. -/
def MAX_CHANNEL_NAME_LENGTH : Nat := 21

/-- The channel-name normalisation applied at the top of `createChannel`,
`getChannel` and `archiveChannel`:
`channelName.slice(0, MAX_CHANNEL_NAME_LENGTH).replace(/\s+/g, '-').toLowerCase()`,
at the character level used by the name-matching model.  The claims about
the canonicalization itself are settled against the UTF-16 unit-level
model `canonicalizeUnits` below, whose ASCII restriction this is
(`canonicalize_agrees_on_ascii`). -/
def canonicalize (s : String) : String :=
  String.mk ((collapseWsAux false (s.data.take MAX_CHANNEL_NAME_LENGTH)).map jsToLowerChar)

/-- Channel record as returned by the Slack API (the fields this library
reads: `id` and `name`). -/
structure SlackChannel where
  id : String
  name : String
  deriving DecidableEq

/-- One response body of the `channels.list` endpoint.
`response_metadata = none` models an absent `response_metadata` object;
`some c` models a present one whose `next_cursor` is `c` (the empty string
standing for an absent or empty, hence falsy, cursor). -/
structure ChannelsPage where
  ok : Bool
  error : Option String
  channels : List SlackChannel
  response_metadata : Option String
  deriving DecidableEq

/-- Truthiness of `response_metadata && response_metadata.next_cursor` as
tested by `getChannel`:
the `typeof` guard on `response_metadata` followed by the truthiness of its
`next_cursor` field. -/
def nextCursorTruthy : Option String → Bool
  | none => false
  | some c => !(c == "")

/-- The inner `for` loop of `getChannel`: first channel of the page whose
lower-cased name equals the lower-cased target. -/
def findChannel (channelName : String) (cs : List SlackChannel) : Option SlackChannel :=
  cs.find? (fun ch => jsLowerStr ch.name == jsLowerStr channelName)

/-- The `while (page)` loop of `getChannel`, run against a script of page
responses.  Returns the found channel (or `none`) together with the number
of `channels.list` requests issued; the outer `none` means the script was
exhausted while the loop wanted another page. -/
def getChannelPages (channelName : String) : List ChannelsPage → Option (Option SlackChannel × Nat)
  | [] => none
  | p :: rest =>
    if !p.ok then some (none, 1)
    else
      match findChannel channelName p.channels with
      | some ch => some (some ch, 1)
      | none =>
        if nextCursorTruthy p.response_metadata then
          match getChannelPages channelName rest with
          | some (r, n) => some (r, n + 1)
          | none => none
        else some (none, 1)

/-- `exports.getChannel`: canonicalizes the name, then pages through
`channels.list` looking for it. -/
def getChannel (channelName : String) (pages : List ChannelsPage) :
    Option (Option SlackChannel × Nat) :=
  getChannelPages (canonicalize channelName) pages

/-- The `profile` sub-object of a Slack member record. -/
structure SlackProfile where
  display_name : String
  deriving DecidableEq

/-- Member record as returned by the Slack API (the fields this library
reads). -/
structure SlackMember where
  id : String
  name : String
  profile : SlackProfile
  deriving DecidableEq

/-- One response body of the `users.list` endpoint; `response_metadata` as
in `ChannelsPage`. -/
structure MembersPage where
  ok : Bool
  error : Option String
  members : List SlackMember
  response_metadata : Option String
  deriving DecidableEq

/-- The inner `for` loop of `getUserInfo`: first member whose lower-cased
`profile.display_name` or lower-cased `name` equals the lower-cased
target. -/
def findMember (username : String) (ms : List SlackMember) : Option SlackMember :=
  ms.find? (fun m =>
    jsLowerStr m.profile.display_name == jsLowerStr username ||
    jsLowerStr m.name == jsLowerStr username)

/-- The `while (page)` loop of `getUserInfo`.  Unlike `getChannel`, the
continuation test is `slackBody.response_metadata.next_cursor` with no
null-check on `slackMember` and no guard on `response_metadata`: the loop
keeps paging after a match, re-assigning `slackMember` on any later match,
and throws when `response_metadata` is absent (modelled by the outer
`none`, which also covers script exhaustion).  `acc` is the current value
of the `slackMember` variable. -/
def getUserInfoPages (username : String) (acc : Option SlackMember) :
    List MembersPage → Option (Option SlackMember × Nat)
  | [] => none
  | p :: rest =>
    if !p.ok then some (acc, 1)
    else
      match p.response_metadata with
      | none => none
      | some c =>
        if !(c == "") then
          match getUserInfoPages username
              (match findMember username p.members with
               | some m => some m
               | none => acc) rest with
          | some (r, n) => some (r, n + 1)
          | none => none
        else
          some ((match findMember username p.members with
                 | some m => some m
                 | none => acc), 1)

/-- `exports.getUserInfo`: pages through `users.list` looking for the
name (no canonicalization is applied to the username). -/
def getUserInfo (username : String) (pages : List MembersPage) :
    Option (Option SlackMember × Nat) :=
  getUserInfoPages username none pages

/-- Response body of `channels.create`: `ok`, optional `error` code, and
the optional `channel` record (`none` models an absent field). -/
structure CreateResponse where
  ok : Bool
  error : Option String
  channel : Option SlackChannel
  deriving DecidableEq

/-- `exports.createChannel`: canonicalizes the name, issues the create
call (whose response body is `resp`), and on an `error` of `name_taken`
falls back to `getChannel` over the script `pages`; otherwise returns
`resp.channel` directly.  The `Nat` counts `channels.list` requests
issued by the fallback lookup. -/
def createChannel (channelName : String) (resp : CreateResponse)
    (pages : List ChannelsPage) : Option (Option SlackChannel × Nat) :=
  let n := canonicalize channelName
  if resp.error == some "name_taken" then getChannel n pages
  else some (resp.channel, 0)

/-- Outcome of a JavaScript computation that may throw a `TypeError`
(reading a property of `null`). -/
inductive JsOutcome (α : Type) where
  | ok (a : α)
  | typeError
  deriving DecidableEq

/-- The `channels.archive` request issued by `archiveChannel`, carrying
the `channel` query parameter. -/
structure ArchiveRequest where
  channel : String
  deriving DecidableEq

/-- `exports.archiveChannel`: canonicalizes the name, resolves it via
`getChannel`, then reads `channel.id` with no null-guard — when the lookup
returned `null` this dereference throws (`JsOutcome.typeError`). -/
def archiveChannel (channelName : String) (pages : List ChannelsPage) :
    Option (JsOutcome ArchiveRequest) :=
  let n := canonicalize channelName
  match getChannel n pages with
  | none => none
  | some (none, _) => some JsOutcome.typeError
  | some (some ch, _) => some (JsOutcome.ok { channel := ch.id })

/-- Message record as delivered by `channels.history`. -/
structure SlackMessage where
  ts : String
  user : String
  text : String
  subtype : Option String
  deriving DecidableEq

/-- Response body of `channels.history`. -/
structure HistoryResponse where
  ok : Bool
  error : Option String
  messages : List SlackMessage
  deriving DecidableEq

/-- `exports.getRoomHistory`: resolves the channel by name via
`getChannel`; on `null` returns `null` without issuing the history
request; otherwise issues it (response body `resp`) and returns
`resp.messages`, or `null` when `resp.ok` is false.  The `Nat` counts
`channels.history` requests issued. -/
def getRoomHistory (channelName : String) (pages : List ChannelsPage)
    (resp : HistoryResponse) : Option (Option (List SlackMessage) × Nat) :=
  match getChannel channelName pages with
  | none => none
  | some (none, _) => some (none, 0)
  | some (some _ch, _) =>
    if !resp.ok then some (none, 1) else some (some resp.messages, 1)

/-- Value of a query-string parameter as the JavaScript builds it.
`undef` models `undefined` (in particular `channel.channel_name`, a
property absent from channel records, which carry only `id` and `name`);
`memberObj m` models a whole member object used where a string was
expected. -/
inductive QueryVal where
  | str (s : String)
  | undef
  | memberObj (m : SlackMember)
  deriving DecidableEq

/-- Observable outcome of `inviteToChannel`: either the function returned
`null` before issuing the invite, or it issued one `channels.invite`
request with the given `channel` and `user` parameter values. -/
inductive InviteOutcome where
  | nullReturn
  | request (channelParam userParam : QueryVal)
  deriving DecidableEq

/-- JavaScript falsiness of an optional string argument (`!channelId`):
absent or empty. -/
def optFalsy : Option String → Bool
  | none => true
  | some s => s == ""

/-- `exports.inviteToChannel`.  When `channelId` is falsy it resolves the
channel by name and, on success, assigns `channelId = channel.channel_name`
— a property that does not exist on channel records, so the parameter
becomes `undefined`; when `userId` is falsy it assigns the entire record
returned by `getUserInfo` to `userId`.  On a failed resolution it returns
`null` without issuing the invite. -/
def inviteToChannel (userName channelName : String) (userId channelId : Option String)
    (chPages : List ChannelsPage) (memPages : List MembersPage) : Option InviteOutcome :=
  let chStep : Option (Option QueryVal) :=
    if optFalsy channelId then
      match getChannel channelName chPages with
      | none => none
      | some (some _ch, _) => some (some QueryVal.undef)
      | some (none, _) => some none
    else some (some (QueryVal.str (channelId.getD "")))
  match chStep with
  | none => none
  | some none => some InviteOutcome.nullReturn
  | some (some cq) =>
    let uStep : Option (Option QueryVal) :=
      if optFalsy userId then
        match getUserInfo userName memPages with
        | none => none
        | some (some m, _) => some (some (QueryVal.memberObj m))
        | some (none, _) => some none
      else some (some (QueryVal.str (userId.getD "")))
    match uStep with
    | none => none
    | some none => some InviteOutcome.nullReturn
    | some (some uq) => some (InviteOutcome.request cq uq)

/-- Generic `ok`/`error` response envelope for the mutating endpoints. -/
structure ApiResp where
  ok : Bool
  error : Option String
  deriving DecidableEq

/-- One `chat.postMessage` request as issued by `postMessageWithFields`:
the `channel` parameter and the `text` parameter (`none` models an
undefined `text` field). -/
structure SlackPost where
  channel : String
  text : Option String
  deriving DecidableEq

/-- `exports.postMessageWithFields`: builds a payload whose `channel` is
`channelName.id` (the argument is in fact a channel record), whose `text`
starts with a `<@userId>` mention when `slackUser` is supplied and is
extended with `text` when that is truthy (when `payload.text` was still
undefined, `+=` concatenates onto the string `"undefined"`); issues the
post and returns the parsed body on `ok`, else `null`.  The list collects
the posts issued. -/
def postMessageWithFields (text : String) (channelRec : SlackChannel)
    (slackUser : Option SlackMember) (resp : ApiResp) : Option ApiResp × List SlackPost :=
  let t0 : Option String :=
    match slackUser with
    | some u => some ("<@" ++ u.id ++ ">")
    | none => none
  let t1 : Option String :=
    if text == "" then t0
    else
      match t0 with
      | some t => some (t ++ text)
      | none => some ("undefined" ++ text)
  let post : SlackPost := { channel := channelRec.id, text := t1 }
  if resp.ok then (some resp, [post]) else (none, [post])

/-- Return value of `channelInvite`: the invite response body, the result
of the fallback `postMessageWithFields` call, or `null`. -/
inductive ChannelInviteRet where
  | body (r : ApiResp)
  | postResult (r : Option ApiResp)
  | nullRet
  deriving DecidableEq

/-- `exports.channelInvite`: issues the invite (response body
`inviteResp`).  On failure with `error == "already_in_channel"` and a user
whose lower-cased `name` is not `"xmatters"`, posts an
`" already in channel"` mention via `postMessageWithFields` (post response
body `postResp`); when the user is the `xmatters` account the condition is
logged and `null` is returned with no post; any other failure returns
`null` with no post.  The list collects the `chat.postMessage` requests
issued. -/
def channelInvite (slackUser : SlackMember) (slackChannel : SlackChannel)
    (inviteResp : ApiResp) (postResp : ApiResp) : ChannelInviteRet × List SlackPost :=
  if inviteResp.ok then (ChannelInviteRet.body inviteResp, [])
  else if inviteResp.error == some "already_in_channel"
      && !(jsLowerStr slackUser.name == "xmatters") then
    let r := postMessageWithFields " already in channel" slackChannel (some slackUser) postResp
    (ChannelInviteRet.postResult r.1, r.2)
  else if jsLowerStr slackUser.name == "xmatters" then
    (ChannelInviteRet.nullRet, [])
  else (ChannelInviteRet.nullRet, [])

/-- JSON value held by the `attachments` field of a caller-built
`postMessage` payload. -/
inductive JVal where
  | jnull
  | jstr (s : String)
  | jarr (elems : List JVal)

/-- JavaScript truthiness of a JSON value: `null` and the empty string are
falsy; arrays (empty included) and nonempty strings are truthy. -/
def jvTruthy : JVal → Bool
  | JVal.jnull => false
  | JVal.jstr s => !(s == "")
  | JVal.jarr _ => true

/-- Escapes backslash and double-quote, as `JSON.stringify` does inside
string literals. -/
def escapeJson (s : String) : String :=
  String.mk (s.data.foldr
    (fun c acc =>
      if c.toNat == 92 || c.toNat == 34 then Char.ofNat 92 :: c :: acc else c :: acc) [])

mutual

/-- Model of `JSON.stringify` on the payload values above. -/
def jsonStringify : JVal → String
  | JVal.jnull => "null"
  | JVal.jstr s => "\"" ++ escapeJson s ++ "\""
  | JVal.jarr es => "[" ++ String.intercalate "," (jsonStringifyList es) ++ "]"

/-- Serialisations of the elements of a JSON array, in order. -/
def jsonStringifyList : List JVal → List String
  | [] => []
  | v :: vs => jsonStringify v :: jsonStringifyList vs

end

/-- The caller-built `chat.postMessage` payload object, with the optional
fields the library and its documented examples use; `token` is the field
`postMessage` writes the credential into. -/
structure PostPayload where
  channel : Option String
  text : Option String
  username : Option String
  icon_url : Option String
  attachments : Option JVal
  token : Option String

/-- `exports.postMessage`: writes the credential into `payload.token`,
replaces `payload.attachments` by `JSON.stringify(payload.attachments)`
when that field is truthy, issues the post (response body `resp`), and
returns the parsed body on `ok`, else `null`.  The first component is the
payload object after the call — the in-place mutation visible to the
caller. -/
def postMessage (slackToken : String) (payload : PostPayload) (resp : ApiResp) :
    PostPayload × Option ApiResp :=
  let p1 : PostPayload := { payload with token := some slackToken }
  let p2 : PostPayload :=
    match p1.attachments with
    | some a =>
      if jvTruthy a then { p1 with attachments := some (JVal.jstr (jsonStringify a)) }
      else p1
    | none => p1
  if resp.ok then (p2, some resp) else (p2, none)

/-- The value of the `slackMember` variable after scanning a run of pages:
a left fold of the inner `for` loop, starting from `acc`. -/
def scanMembers (username : String) (acc : Option SlackMember) (front : List MembersPage) :
    Option SlackMember :=
  front.foldl (fun a p =>
    match findMember username p.members with
    | some m => some m
    | none => a) acc

/-- Sample profile used in concrete runs. -/
def troyProfile : SlackProfile := { display_name := "Troy" }

/-- Sample member used in concrete runs. -/
def troyMember : SlackMember :=
  { id := "U1234567890", name := "troy", profile := troyProfile }

/-- Sample member for the service account of the integration itself. -/
def xmattersMember : SlackMember :=
  { id := "U0XMBOT000", name := "xMatters", profile := { display_name := "xMatters Bot" } }

/-- A `users.list` page that contains the sample member and carries a next
cursor. -/
def memPage1 : MembersPage :=
  { ok := true, error := none, members := [troyMember], response_metadata := some "c1" }

/-- A `users.list` page with no match and an empty (falsy) cursor. -/
def memPageEnd : MembersPage :=
  { ok := true, error := none, members := [], response_metadata := some "" }

/-- A failing `users.list` response body. -/
def memPageErr : MembersPage :=
  { ok := false, error := some "ratelimited", members := [], response_metadata := none }

/-- Sample channel used in concrete runs. -/
def myRoomChannel : SlackChannel := { id := "C1", name := "my-room" }

/-- A second sample channel, not the lookup target. -/
def otherChannel : SlackChannel := { id := "C9", name := "general" }

/-- A `channels.list` page containing the sample channel, with an empty
cursor. -/
def chPage1 : ChannelsPage :=
  { ok := true, error := none, channels := [myRoomChannel], response_metadata := some "" }

/-- A `channels.list` page with no match that carries a next cursor. -/
def chPageNext : ChannelsPage :=
  { ok := true, error := none, channels := [otherChannel], response_metadata := some "c1" }

/-- A `channels.list` page with no match and no cursor. -/
def chPageEmpty : ChannelsPage :=
  { ok := true, error := none, channels := [], response_metadata := some "" }

/-- A failing `channels.list` response body. -/
def chPageErr : ChannelsPage :=
  { ok := false, error := some "invalid_auth", channels := [], response_metadata := none }

/-- A `channels.create` response body reporting `name_taken`. -/
def respTaken : CreateResponse :=
  { ok := false, error := some "name_taken", channel := none }

/-- A successful `channels.create` response body. -/
def respCreated : CreateResponse :=
  { ok := true, error := none, channel := some myRoomChannel }

/-- A failing `channels.history` response body. -/
def histErr : HistoryResponse :=
  { ok := false, error := some "channel_not_found", messages := [] }

/-- A failing invite response body reporting `already_in_channel`. -/
def inviteRespAlready : ApiResp := { ok := false, error := some "already_in_channel" }

/-- A successful generic response body. -/
def apiRespOk : ApiResp := { ok := true, error := none }

/-- A payload whose `attachments` field is present but `null` (falsy). -/
def payloadNullAtt : PostPayload :=
  { channel := some "#general", text := some "hi", username := none,
    icon_url := none, attachments := some JVal.jnull, token := none }

/-- A payload whose `attachments` field holds a structured array. -/
def payloadArrAtt : PostPayload :=
  { channel := some "#general", text := some "hi", username := none,
    icon_url := none, attachments := some (JVal.jarr [JVal.jstr "a"]), token := none }

/-- UTF-16 encoding of one character: a single code unit below U+10000,
a surrogate pair above. -/
def utf16Char (c : Char) : List Nat :=
  if c.toNat < 0x10000 then [c.toNat]
  else [0xD800 + (c.toNat - 0x10000) / 0x400, 0xDC00 + (c.toNat - 0x10000) % 0x400]

/-- UTF-16 code units of a string — the representation JavaScript string
operations (`slice`, `length`) act on. -/
def utf16 (s : String) : List Nat := (s.data.map utf16Char).flatten

/-- ECMAScript `toLowerCase` at the UTF-16 unit level: the Unicode default
lowercase mapping of one unit, as a unit sequence.  Modelled fragment:
ASCII `A`–`Z`, the Latin-1 uppercase range U+00C0–U+00DE (without the
multiplication sign U+00D7), and U+0130 — the one code point whose
ECMAScript lowercase mapping has length other than one (it expands to
i + combining dot above, U+0069 U+0307).  Every mapping the fragment
omits (further BMP letters such as Greek and Cyrillic, the context-
dependent final sigma, astral-plane letters whose surrogate pairs stay
two units) is length-preserving and has case-fixed, non-whitespace
outputs, so the facts proved below — outputs are fixed points, at most
two units per unit, exactly one unit except at U+0130, never whitespace,
never ASCII uppercase — hold of the full ECMAScript mapping as well. -/
def jsLowerUnit (u : Nat) : List Nat :=
  if 65 ≤ u ∧ u ≤ 90 then [u + 32]
  else if 0xC0 ≤ u ∧ u ≤ 0xDE ∧ u ≠ 0xD7 then [u + 32]
  else if u = 0x130 then [0x69, 0x307]
  else [u]

/-- `toLowerCase` over a whole unit sequence. -/
def lowerUnits (s : List Nat) : List Nat := (s.map jsLowerUnit).flatten

/-- `replace(/\s+/g, '-')` at the unit level: every maximal run of
whitespace units becomes a single hyphen (unit 45). -/
def collapseWsU : Bool → List Nat → List Nat
  | _, [] => []
  | prevWs, u :: us =>
    if isWsCode u then
      (if prevWs then collapseWsU true us else 45 :: collapseWsU true us)
    else u :: collapseWsU false us

/-- The channel-name normalisation
`channelName.slice(0, MAX_CHANNEL_NAME_LENGTH).replace(/\s+/g, '-').toLowerCase()`
at the UTF-16 unit level, where `slice(0, 21)` takes 21 code units and
`toLowerCase` may expand U+0130.  This is the model the claims about the
canonicalization itself are settled against. -/
def canonicalizeUnits (s : List Nat) : List Nat :=
  lowerUnits (collapseWsU false (s.take MAX_CHANNEL_NAME_LENGTH))

/-- Twenty-one copies of U+0130 (latin capital letter I with dot above),
the name at which the canonicalization leaves the 21-unit range. -/
def unitsIDot : List Nat := List.replicate MAX_CHANNEL_NAME_LENGTH 0x130

/-- The UTF-16 units of the ASCII name used in concrete canonicalization
runs (the string `My Room`). -/
def unitsMyRoom : List Nat := [77, 121, 32, 82, 111, 111, 109]

/-- Evaluation of `Char.ofNat` below the surrogate range. -/
theorem toNat_ofNat_small : ∀ n < 123, (Char.ofNat n).toNat = n := by decide

/-- No character code between 65 and 122 is JavaScript whitespace. -/
theorem isWsCode_letter_range : ∀ n < 123, 65 ≤ n → isWsCode n = false := by decide

/-- Bounds extracted from `isUpperA`. -/
theorem isUpperA_bounds (c : Char) (h : isUpperA c = true) : 65 ≤ c.toNat ∧ c.toNat ≤ 90 := by
  simpa [isUpperA] using h

/-- Lower-casing is idempotent character-wise. -/
theorem jsToLowerChar_idem (c : Char) : jsToLowerChar (jsToLowerChar c) = jsToLowerChar c := by
  unfold jsToLowerChar
  by_cases h : isUpperA c = true
  · simp only [h, if_pos]
    have hb := isUpperA_bounds c h
    have ht : (Char.ofNat (c.toNat + 32)).toNat = c.toNat + 32 :=
      toNat_ofNat_small _ (by omega)
    have hnu : isUpperA (Char.ofNat (c.toNat + 32)) = false := by
      simp [isUpperA, ht]; omega
    simp [hnu]
  · simp only [Bool.not_eq_true] at h
    simp [h]

/-- Lower-casing never produces an upper-case ASCII letter. -/
theorem isUpperA_jsToLowerChar (c : Char) : isUpperA (jsToLowerChar c) = false := by
  unfold jsToLowerChar
  by_cases h : isUpperA c = true
  · have hb := isUpperA_bounds c h
    have ht : (Char.ofNat (c.toNat + 32)).toNat = c.toNat + 32 :=
      toNat_ofNat_small _ (by omega)
    simp only [h, if_pos]
    simp [isUpperA, ht]; omega
  · simp only [Bool.not_eq_true] at h
    simp [h]

/-- Lower-casing preserves the whitespace test. -/
theorem isWsJS_jsToLowerChar (c : Char) : isWsJS (jsToLowerChar c) = isWsJS c := by
  unfold jsToLowerChar
  by_cases h : isUpperA c = true
  · have hb := isUpperA_bounds c h
    have ht : (Char.ofNat (c.toNat + 32)).toNat = c.toNat + 32 :=
      toNat_ofNat_small _ (by omega)
    simp only [h, if_pos, isWsJS, ht]
    rw [isWsCode_letter_range _ (by omega) (by omega),
        isWsCode_letter_range _ (by omega) (by omega)]
  · simp only [Bool.not_eq_true] at h
    simp [h]

/-- Collapsing whitespace never lengthens the list. -/
theorem collapseWsAux_length (l : List Char) :
    ∀ b, (collapseWsAux b l).length ≤ l.length := by
  induction l with
  | nil => intro b; simp [collapseWsAux]
  | cons c cs ih =>
    intro b
    simp only [collapseWsAux]
    by_cases h : isWsJS c = true
    · cases b <;> simp only [h, if_pos, if_neg, Bool.false_eq_true, ite_true, ite_false]
      · simpa using Nat.succ_le_succ (ih true)
      · exact Nat.le_succ_of_le (ih true)
    · simp only [Bool.not_eq_true] at h
      simpa [h] using Nat.succ_le_succ (ih false)

/-- Everything in the output of whitespace collapsing is non-whitespace. -/
theorem collapseWsAux_no_ws (l : List Char) :
    ∀ b c, c ∈ collapseWsAux b l → isWsJS c = false := by
  induction l with
  | nil => intro b c hc; simp [collapseWsAux] at hc
  | cons d ds ih =>
    intro b c hc
    simp only [collapseWsAux] at hc
    by_cases h : isWsJS d = true
    · cases b <;> simp only [h, ite_true, ite_false] at hc
      · rcases List.mem_cons.mp hc with rfl | hc
        · decide
        · exact ih true c hc
      · exact ih true c hc
    · simp only [Bool.not_eq_true] at h
      simp only [h, Bool.false_eq_true, ite_false] at hc
      rcases List.mem_cons.mp hc with rfl | hc
      · exact h
      · exact ih false c hc

/-- Whitespace collapsing fixes a list that has no whitespace. -/
theorem collapseWsAux_eq_self (l : List Char) (hl : ∀ c ∈ l, isWsJS c = false) :
    ∀ b, collapseWsAux b l = l := by
  induction l with
  | nil => intro b; simp [collapseWsAux]
  | cons d ds ih =>
    intro b
    have hd : isWsJS d = false := hl d (by simp)
    simp only [collapseWsAux, hd, Bool.false_eq_true, ite_false]
    rw [ih (fun c hc => hl c (by simp [hc]))]

/-- List-level statement of the idempotence of the channel-name
normalisation pipeline. -/
theorem canonList_idem (l : List Char) :
    (collapseWsAux false
        (((collapseWsAux false (l.take MAX_CHANNEL_NAME_LENGTH)).map
            jsToLowerChar).take MAX_CHANNEL_NAME_LENGTH)).map jsToLowerChar
      = (collapseWsAux false (l.take MAX_CHANNEL_NAME_LENGTH)).map jsToLowerChar := by
  set X := collapseWsAux false (l.take MAX_CHANNEL_NAME_LENGTH) with hX
  have h1 : (X.map jsToLowerChar).length ≤ MAX_CHANNEL_NAME_LENGTH := by
    rw [List.length_map]
    calc X.length ≤ (l.take MAX_CHANNEL_NAME_LENGTH).length := collapseWsAux_length _ false
    _ ≤ MAX_CHANNEL_NAME_LENGTH := by rw [List.length_take]; omega
  rw [List.take_of_length_le h1]
  have h2 : ∀ c ∈ X.map jsToLowerChar, isWsJS c = false := by
    intro c hc
    rcases List.mem_map.mp hc with ⟨d, hd, rfl⟩
    rw [isWsJS_jsToLowerChar]
    exact collapseWsAux_no_ws _ false d hd
  rw [collapseWsAux_eq_self _ h2 false, List.map_map]
  exact List.map_congr_left (fun a _ => by simp [Function.comp, jsToLowerChar_idem a])

/-- Idempotence of `canonicalize`, shared helper form. -/
theorem canonicalize_idem (s : String) : canonicalize (canonicalize s) = canonicalize s := by
  unfold canonicalize
  exact congrArg String.mk (canonList_idem s.data)

/-- Inversion of a truthy next cursor. -/
theorem nextCursorTruthy_some (o : Option String) (h : nextCursorTruthy o = true) :
    ∃ c, o = some c ∧ (c == "") = false := by
  cases o with
  | none => simp [nextCursorTruthy] at h
  | some c => exact ⟨c, rfl, by simpa [nextCursorTruthy] using h⟩

/-- A match on the first page past a run of matchless, cursor-carrying
pages short-circuits the channel scan: the pages after it are never
requested. -/
theorem getChannelPages_found (name : String) (front : List ChannelsPage)
    (pk : ChannelsPage) (rest : List ChannelsPage) (ch : SlackChannel)
    (hok : pk.ok = true) (hfind : findChannel name pk.channels = some ch) :
    (∀ p ∈ front, p.ok = true ∧ findChannel name p.channels = none ∧
      nextCursorTruthy p.response_metadata = true) →
    getChannelPages name (front ++ pk :: rest) = some (some ch, front.length + 1) := by
  induction front with
  | nil =>
    intro _
    simp [getChannelPages, hok, hfind]
  | cons p ps ih =>
    intro hfront
    have hp := hfront p (by simp)
    have hrec := ih (fun q hq => hfront q (by simp [hq]))
    simp only [List.cons_append, getChannelPages, List.append_eq, hp.1, hp.2.1, hp.2.2,
      Bool.not_true, Bool.false_eq_true, if_false, if_true]
    rw [hrec]
    simp [Nat.add_comm]

/-- A failure envelope aborts the channel scan at once and yields `null`. -/
theorem getChannelPages_err (name : String) (front : List ChannelsPage)
    (pk : ChannelsPage) (rest : List ChannelsPage) (hok : pk.ok = false) :
    (∀ p ∈ front, p.ok = true ∧ findChannel name p.channels = none ∧
      nextCursorTruthy p.response_metadata = true) →
    getChannelPages name (front ++ pk :: rest) = some (none, front.length + 1) := by
  induction front with
  | nil =>
    intro _
    simp [getChannelPages, hok]
  | cons p ps ih =>
    intro hfront
    have hp := hfront p (by simp)
    have hrec := ih (fun q hq => hfront q (by simp [hq]))
    simp only [List.cons_append, getChannelPages, List.append_eq, hp.1, hp.2.1, hp.2.2,
      Bool.not_true, Bool.false_eq_true, if_false, if_true]
    rw [hrec]
    simp [Nat.add_comm]

/-- Every completed run of the user scan issued at least one request. -/
theorem getUserInfoPages_count_pos (username : String) (acc : Option SlackMember)
    (pages : List MembersPage) (r : Option SlackMember) (n : Nat)
    (h : getUserInfoPages username acc pages = some (r, n)) : 1 ≤ n := by
  cases pages with
  | nil => simp [getUserInfoPages] at h
  | cons p ps =>
    simp only [getUserInfoPages] at h
    split at h
    · simp at h
      omega
    · split at h
      · simp at h
      · split at h
        · split at h
          · simp at h
            omega
          · simp at h
        · simp at h
          omega

/-- After a match on a page that still carries a next cursor, the user
scan keeps going: it pages through `rest` and adds those requests on top
of the ones already issued. -/
theorem getUserInfoPages_after_match (username : String) (front : List MembersPage)
    (pk : MembersPage) (rest : List MembersPage) (m : SlackMember) (c : String)
    (r : Option SlackMember) (n : Nat)
    (hok : pk.ok = true) (hfind : findMember username pk.members = some m)
    (hmeta : pk.response_metadata = some c) (hc : (c == "") = false)
    (hrest : getUserInfoPages username (some m) rest = some (r, n)) :
    ∀ acc : Option SlackMember,
    (∀ p ∈ front, p.ok = true ∧ findMember username p.members = none ∧
      nextCursorTruthy p.response_metadata = true) →
    getUserInfoPages username acc (front ++ pk :: rest) = some (r, front.length + 1 + n) := by
  induction front with
  | nil =>
    intro acc _
    simp only [List.nil_append, getUserInfoPages, hok, hmeta, hfind, hc, Bool.not_true,
      Bool.false_eq_true, Bool.not_false, if_false, if_true]
    rw [hrest]
    simp [Nat.add_comm]
  | cons p ps ih =>
    intro acc hfront
    have hp := hfront p (by simp)
    rcases nextCursorTruthy_some _ hp.2.2 with ⟨c2, hmeta2, hc2⟩
    have hrec := ih acc (fun q hq => hfront q (by simp [hq]))
    simp only [List.cons_append, getUserInfoPages, List.append_eq, hp.1, hp.2.1, hmeta2, hc2,
      Bool.not_true, Bool.false_eq_true, Bool.not_false, if_false, if_true]
    rw [hrec]
    simp
    omega

/-- A failure envelope aborts the user scan at once, returning whatever
the preceding pages had matched. -/
theorem getUserInfoPages_err (username : String) (front : List MembersPage)
    (pk : MembersPage) (rest : List MembersPage) (hok : pk.ok = false) :
    ∀ acc : Option SlackMember,
    (∀ p ∈ front, p.ok = true ∧ nextCursorTruthy p.response_metadata = true) →
    getUserInfoPages username acc (front ++ pk :: rest) =
      some (scanMembers username acc front, front.length + 1) := by
  induction front with
  | nil =>
    intro acc _
    simp [getUserInfoPages, hok, scanMembers]
  | cons p ps ih =>
    intro acc hfront
    have hp := hfront p (by simp)
    rcases nextCursorTruthy_some _ hp.2 with ⟨c, hmeta, hc⟩
    have hrec := fun acc2 => ih acc2 (fun q hq => hfront q (by simp [hq]))
    simp only [List.cons_append, getUserInfoPages, List.append_eq, hp.1, hmeta, hc,
      Bool.not_true, Bool.false_eq_true, Bool.not_false, if_false, if_true]
    rw [hrec]
    simp [scanMembers]

/-- Counterexample to claim C1: in the user instantiation a match on page 1 does
not short-circuit the scan.  The target is first (and only) matched on
page 1, which carries a next cursor, and the run issues 2 listing
requests, not 1. -/
theorem getUserInfo_no_short_circuit :
    findMember "troy" memPage1.members = some troyMember ∧
    getUserInfo "troy" [memPage1, memPageEnd] = some (some troyMember, 2) ∧
    (2 : Nat) ≠ 1 := ⟨by decide, by decide, by decide⟩

/-- Claim C1 (amended): the channel instantiation short-circuits — a match on
page k, after k−1 ok, matchless, cursor-carrying pages, issues exactly k
listing requests and never requests page k+1; the user instantiation does
not — when the matching page still carries a truthy next cursor the scan
pages on through the remaining script, issuing at least one further
request, and returns the last match found. -/
theorem pagination_match_requests :
    (∀ (name : String) (front : List ChannelsPage) (pk : ChannelsPage)
        (rest : List ChannelsPage) (ch : SlackChannel),
      pk.ok = true → findChannel (canonicalize name) pk.channels = some ch →
      (∀ p ∈ front, p.ok = true ∧ findChannel (canonicalize name) p.channels = none ∧
        nextCursorTruthy p.response_metadata = true) →
      getChannel name (front ++ pk :: rest) = some (some ch, front.length + 1)) ∧
    (∀ (username : String) (front : List MembersPage) (pk : MembersPage)
        (rest : List MembersPage) (m : SlackMember) (c : String)
        (r : Option SlackMember) (n : Nat),
      pk.ok = true → findMember username pk.members = some m →
      pk.response_metadata = some c → (c == "") = false →
      getUserInfoPages username (some m) rest = some (r, n) →
      (∀ p ∈ front, p.ok = true ∧ findMember username p.members = none ∧
        nextCursorTruthy p.response_metadata = true) →
      getUserInfo username (front ++ pk :: rest) = some (r, front.length + 1 + n) ∧ 1 ≤ n) := by
  constructor
  · intro name front pk rest ch hok hfind hfront
    exact getChannelPages_found (canonicalize name) front pk rest ch hok hfind hfront
  · intro username front pk rest m c r n hok hfind hmeta hc hrest hfront
    exact ⟨getUserInfoPages_after_match username front pk rest m c r n hok hfind hmeta hc
      hrest none hfront,
      getUserInfoPages_count_pos username (some m) rest r n hrest⟩

/-- Concrete instance of the amended pagination claim: channel lookup
finds the target on page 2 with exactly 2 requests; user lookup finds the
target on page 1 and still issues a second request. -/
theorem pagination_match_requests_witness :
    getChannel "my-room" ([chPageNext] ++ chPage1 :: []) = some (some myRoomChannel, 2) ∧
    (getUserInfo "troy" ([] ++ memPage1 :: [memPageEnd]) = some (some troyMember, 0 + 1 + 1) ∧
      1 ≤ 1) := by
  constructor
  · exact pagination_match_requests.1 "my-room" [chPageNext] chPage1 [] myRoomChannel
      (by decide) (by decide)
      (by
        intro p hp
        rw [List.mem_singleton] at hp
        subst hp
        exact ⟨by decide, by decide, by decide⟩)
  · exact pagination_match_requests.2 "troy" [] memPage1 [memPageEnd] troyMember "c1"
      (some troyMember) 1 (by decide) (by decide) (by decide) (by decide) (by decide)
      (by simp)

/-- Claim C2, evaluated at the failing input: with neither id supplied and
both names resolving, `inviteToChannel` issues the invite with the
`channel` parameter set to the undefined `channel.channel_name` and the
`user` parameter set to the whole member record — not the resolved
identifiers. -/
theorem inviteToChannel_param_eval :
    inviteToChannel "troy" "my-room" none none [chPage1] [memPage1, memPageEnd] =
      some (InviteOutcome.request QueryVal.undef (QueryVal.memberObj troyMember)) ∧
    QueryVal.undef ≠ QueryVal.str myRoomChannel.id ∧
    QueryVal.memberObj troyMember ≠ QueryVal.str troyMember.id := ⟨by decide, by decide, by decide⟩

/-- Claim C3: on a `name_taken` error code `createChannel` returns exactly the
result of `getChannel` on the canonicalized name over the same page
script; on any other response it returns the `channel` field of the
creation response and issues no listing request. -/
theorem createChannel_name_taken_fallback (channelName : String) (resp : CreateResponse)
    (pages : List ChannelsPage) :
    (resp.error = some "name_taken" →
      createChannel channelName resp pages = getChannel (canonicalize channelName) pages) ∧
    (resp.error ≠ some "name_taken" →
      createChannel channelName resp pages = some (resp.channel, 0)) := by
  constructor
  · intro h
    simp [createChannel, h]
  · intro h
    simp [createChannel, beq_iff_eq, h]

/-- Concrete instance of the creation-fallback claim: a `name_taken`
response falls back to the lookup, a successful response is returned
directly. -/
theorem createChannel_name_taken_fallback_witness :
    createChannel "My Room" respTaken [chPage1] = getChannel (canonicalize "My Room") [chPage1] ∧
    createChannel "My Room" respCreated [] = some (some myRoomChannel, 0) := by
  constructor
  · exact (createChannel_name_taken_fallback "My Room" respTaken [chPage1]).1 rfl
  · exact (createChannel_name_taken_fallback "My Room" respCreated []).2 (by decide)

/-- Counterexample to claim C6: the user scan does stop on a failure envelope, but
returns the member matched on an earlier page rather than the none-value:
page 2 carries `ok: false` and the run returns the page-1 match. -/
theorem getUserInfo_error_keeps_match :
    memPageErr.ok = false ∧
    getUserInfo "troy" [memPage1, memPageErr] = some (some troyMember, 2) ∧
    some troyMember ≠ (none : Option SlackMember) := ⟨rfl, by decide, by decide⟩

/-- Claim C6 (amended): a failure envelope on page k aborts both scans at once —
exactly k listing requests, none after it.  The channel lookup then
returns the none-value; the user lookup returns whatever the preceding
pages had matched (the none-value only when nothing had matched yet). -/
theorem pagination_abort_on_error :
    (∀ (name : String) (front : List ChannelsPage) (pk : ChannelsPage)
        (rest : List ChannelsPage),
      pk.ok = false →
      (∀ p ∈ front, p.ok = true ∧ findChannel (canonicalize name) p.channels = none ∧
        nextCursorTruthy p.response_metadata = true) →
      getChannel name (front ++ pk :: rest) = some (none, front.length + 1)) ∧
    (∀ (username : String) (front : List MembersPage) (pk : MembersPage)
        (rest : List MembersPage),
      pk.ok = false →
      (∀ p ∈ front, p.ok = true ∧ nextCursorTruthy p.response_metadata = true) →
      getUserInfo username (front ++ pk :: rest) =
        some (scanMembers username none front, front.length + 1)) := by
  constructor
  · intro name front pk rest hok hfront
    exact getChannelPages_err (canonicalize name) front pk rest hok hfront
  · intro username front pk rest hok hfront
    exact getUserInfoPages_err username front pk rest hok none hfront

/-- Concrete instance of the amended abort claim: an immediate channel
failure returns the none-value after 1 request; a user failure on page 2
returns the page-1 match after 2 requests. -/
theorem pagination_abort_on_error_witness :
    getChannel "my-room" ([] ++ chPageErr :: []) = some (none, 1) ∧
    getUserInfo "troy" ([memPage1] ++ memPageErr :: []) =
      some (scanMembers "troy" none [memPage1], 2) := by
  constructor
  · exact pagination_abort_on_error.1 "my-room" [] chPageErr [] rfl (by simp)
  · exact pagination_abort_on_error.2 "troy" [memPage1] memPageErr [] rfl
      (by
        intro p hp
        rw [List.mem_singleton] at hp
        subst hp
        exact ⟨by decide, by decide⟩)

/-- Claim C7: `getRoomHistory` returns the none-value and issues zero history
requests when the channel lookup finds nothing, and likewise returns the
none-value when the lookup succeeds but the history response is a failure
envelope — not-found and API failure are observationally identical. -/
theorem getRoomHistory_none_collapse (channelName : String) (pages : List ChannelsPage)
    (resp : HistoryResponse) :
    (∀ k, getChannel channelName pages = some (none, k) →
      getRoomHistory channelName pages resp = some (none, 0)) ∧
    (∀ ch k, getChannel channelName pages = some (some ch, k) → resp.ok = false →
      getRoomHistory channelName pages resp = some (none, 1)) := by
  constructor
  · intro k h
    unfold getRoomHistory
    rw [h]
  · intro ch k h hok
    unfold getRoomHistory
    rw [h]
    simp [hok]

/-- Concrete instance of the history claim: a missing channel yields the
none-value with zero history requests; a failing history response on a
found channel also yields the none-value. -/
theorem getRoomHistory_none_collapse_witness :
    getRoomHistory "nochannel" [chPageEmpty] histErr = some (none, 0) ∧
    getRoomHistory "my-room" [chPage1] histErr = some (none, 1) := by
  constructor
  · exact (getRoomHistory_none_collapse "nochannel" [chPageEmpty] histErr).1 1 (by decide)
  · exact (getRoomHistory_none_collapse "my-room" [chPage1] histErr).2 myRoomChannel 1
      (by decide) rfl

/-- Claim C9: whenever the name lookup yields the not-found none-value,
`archiveChannel` dereferences the `id` field of `null` without a guard and
throws a `TypeError` instead of returning normally. -/
theorem archiveChannel_crash_on_missing (channelName : String) (pages : List ChannelsPage)
    (k : Nat) (h : getChannel channelName pages = some (none, k)) :
    archiveChannel channelName pages = some JsOutcome.typeError := by
  have h2 : getChannel (canonicalize channelName) pages = some (none, k) := by
    unfold getChannel at h ⊢
    rw [canonicalize_idem]
    exact h
  simp only [archiveChannel]
  rw [h2]

/-- Concrete instance of the archival-crash claim: the not-found branch is
reachable and throws. -/
theorem archiveChannel_crash_on_missing_witness :
    archiveChannel "nochannel" [chPageEmpty] = some JsOutcome.typeError :=
  archiveChannel_crash_on_missing "nochannel" [chPageEmpty] 1 (by decide)

/-- Claim C8: when the invite response fails with `already_in_channel`,
`channelInvite` posts exactly one mention-message into the channel when
the user is not the `xmatters` service account, and posts no message when
it is. -/
theorem channelInvite_already_in_channel (slackUser : SlackMember)
    (slackChannel : SlackChannel) (inviteResp postResp : ApiResp)
    (hok : inviteResp.ok = false) (herr : inviteResp.error = some "already_in_channel") :
    (jsLowerStr slackUser.name ≠ "xmatters" →
      (channelInvite slackUser slackChannel inviteResp postResp).2 =
        [{ channel := slackChannel.id,
           text := some (("<@" ++ slackUser.id ++ ">") ++ " already in channel") }]) ∧
    (jsLowerStr slackUser.name = "xmatters" →
      (channelInvite slackUser slackChannel inviteResp postResp).2 = []) := by
  constructor
  · intro hname
    have hb : (jsLowerStr slackUser.name == "xmatters") = false := by
      simp [beq_iff_eq, hname]
    simp only [channelInvite, hok, herr, hb, postMessageWithFields, Bool.false_eq_true,
      ite_false, beq_self_eq_true, Bool.not_false, Bool.and_true, ite_true]
    by_cases hp : postResp.ok = true <;> simp [hp]
  · intro hname
    have hb : (jsLowerStr slackUser.name == "xmatters") = true := by
      simp [beq_iff_eq, hname]
    simp [channelInvite, hok, herr, hb]

/-- Concrete instance of the invite-conflict claim: a non-service-account
user already in the channel gets a mention-message posted; the xmatters
account does not. -/
theorem channelInvite_already_in_channel_witness :
    (channelInvite troyMember myRoomChannel inviteRespAlready apiRespOk).2 =
      [{ channel := myRoomChannel.id,
         text := some (("<@" ++ troyMember.id ++ ">") ++ " already in channel") }] ∧
    (channelInvite xmattersMember myRoomChannel inviteRespAlready apiRespOk).2 = [] := by
  constructor
  · exact (channelInvite_already_in_channel troyMember myRoomChannel inviteRespAlready
      apiRespOk rfl rfl).1 (by decide)
  · exact (channelInvite_already_in_channel xmattersMember myRoomChannel inviteRespAlready
      apiRespOk rfl rfl).2 (by decide)

/-- Counterexample to claim C10: a payload whose `attachments` field is present but
holds `null` (falsy) is not serialised in place — after the call the field
still holds `null`, not its serialized string form `"null"`. -/
theorem postMessage_falsy_attachments :
    (postMessage "tok" payloadNullAtt apiRespOk).1.attachments = some JVal.jnull ∧
    some JVal.jnull ≠ some (JVal.jstr (jsonStringify JVal.jnull)) := by
  constructor
  · rfl
  · simp [jsonStringify]

/-- The payload object after a `postMessage` call, as a function of the
input payload. -/
theorem postMessage_fst (slackToken : String) (payload : PostPayload) (resp : ApiResp) :
    (postMessage slackToken payload resp).1 =
      match payload.attachments with
      | some a =>
        if jvTruthy a then
          { payload with token := some slackToken,
                         attachments := some (JVal.jstr (jsonStringify a)) }
        else { payload with token := some slackToken }
      | none => { payload with token := some slackToken } := by
  unfold postMessage
  by_cases h : resp.ok = true
  · simp only [h, ite_true]
  · rw [Bool.not_eq_true] at h
    simp only [h, Bool.false_eq_true, ite_false]

/-- Claim C10 (amended): `postMessage` mutates the payload supplied by the
caller in place —
the credential is always written under the `token` key, and the
`attachments` field is replaced by its serialized string form exactly when
it is present and truthy (the `if (payload.attachments)` test in the code);
an absent or falsy `attachments` field, and every other field, are left
unchanged.  The mutated payload is returned to the caller. -/
theorem postMessage_mutation (slackToken : String) (payload : PostPayload) (resp : ApiResp) :
    (postMessage slackToken payload resp).1.token = some slackToken ∧
    (∀ a, payload.attachments = some a → jvTruthy a = true →
      (postMessage slackToken payload resp).1.attachments =
        some (JVal.jstr (jsonStringify a))) ∧
    (∀ a, payload.attachments = some a → jvTruthy a = false →
      (postMessage slackToken payload resp).1.attachments = some a) ∧
    (payload.attachments = none →
      (postMessage slackToken payload resp).1.attachments = none) ∧
    (postMessage slackToken payload resp).1.channel = payload.channel ∧
    (postMessage slackToken payload resp).1.text = payload.text ∧
    (postMessage slackToken payload resp).1.username = payload.username ∧
    (postMessage slackToken payload resp).1.icon_url = payload.icon_url := by
  rw [postMessage_fst]
  refine ⟨?_, ?_, ?_, ?_, ?_, ?_, ?_, ?_⟩
  · cases h : payload.attachments with
    | none => rfl
    | some a => by_cases ht : jvTruthy a = true <;> simp [ht]
  · intro a ha ht
    rw [ha]
    simp [ht]
  · intro a ha ht
    rw [ha]
    simp [ht]
  · intro ha
    rw [ha]
  · cases h : payload.attachments with
    | none => rfl
    | some a => by_cases ht : jvTruthy a = true <;> simp [ht]
  · cases h : payload.attachments with
    | none => rfl
    | some a => by_cases ht : jvTruthy a = true <;> simp [ht]
  · cases h : payload.attachments with
    | none => rfl
    | some a => by_cases ht : jvTruthy a = true <;> simp [ht]
  · cases h : payload.attachments with
    | none => rfl
    | some a => by_cases ht : jvTruthy a = true <;> simp [ht]

/-- Concrete instance of the amended mutation claim: a truthy structured
`attachments` array is serialised in place and the token is written. -/
theorem postMessage_mutation_witness :
    (postMessage "tok" payloadArrAtt apiRespOk).1.token = some "tok" ∧
    (postMessage "tok" payloadArrAtt apiRespOk).1.attachments =
      some (JVal.jstr (jsonStringify (JVal.jarr [JVal.jstr "a"]))) := by
  constructor
  · exact (postMessage_mutation "tok" payloadArrAtt apiRespOk).1
  · exact (postMessage_mutation "tok" payloadArrAtt apiRespOk).2.1 _ rfl rfl

/-- No character code in the block between the Latin-1 area (above the
no-break space, 160) and the Ogham space mark (0x1680) is JavaScript
whitespace; covers the lower-case outputs of the modelled mapping. -/
theorem isWsCode_between (n : Nat) (h1 : 33 ≤ n) (h2 : n ≠ 160) (h3 : n < 5760) :
    isWsCode n = false := by
  unfold isWsCode
  simp only [Bool.or_eq_false_iff, beq_eq_false_iff_ne, ne_eq, Bool.and_eq_false_iff,
    decide_eq_false_iff_not, not_le]
  omega

/-- Every unit produced by the lowercase mapping is a fixed point of the
mapping — a property of the full ECMAScript mapping, whose outputs are
lowercase. -/
theorem jsLowerUnit_fixed (u v : Nat) (hv : v ∈ jsLowerUnit u) : jsLowerUnit v = [v] := by
  unfold jsLowerUnit at hv ⊢
  split_ifs at hv with h1 h2 h3 <;>
    simp only [List.mem_singleton, List.mem_cons, List.not_mem_nil, or_false] at hv
  · subst hv
    split_ifs <;> first | rfl | omega
  · subst hv
    split_ifs <;> first | rfl | omega
  · rcases hv with rfl | rfl <;> (split_ifs <;> first | rfl | omega)
  · subst hv
    split_ifs <;> first | rfl | omega

/-- Lower-casing a non-whitespace unit never produces whitespace. -/
theorem jsLowerUnit_not_ws (u v : Nat) (hu : isWsCode u = false) (hv : v ∈ jsLowerUnit u) :
    isWsCode v = false := by
  unfold jsLowerUnit at hv
  split_ifs at hv with h1 h2 h3 <;>
    simp only [List.mem_singleton, List.mem_cons, List.not_mem_nil, or_false] at hv
  · subst hv
    exact isWsCode_between _ (by omega) (by omega) (by omega)
  · subst hv
    exact isWsCode_between _ (by omega) (by omega) (by omega)
  · rcases hv with rfl | rfl <;> decide
  · subst hv
    exact hu

/-- Unfolding of `lowerUnits` on a cons cell. -/
theorem lowerUnits_cons (u : Nat) (l : List Nat) :
    lowerUnits (u :: l) = jsLowerUnit u ++ lowerUnits l := by
  simp [lowerUnits]

/-- `lowerUnits` distributes over append. -/
theorem lowerUnits_append (a b : List Nat) :
    lowerUnits (a ++ b) = lowerUnits a ++ lowerUnits b := by
  simp [lowerUnits]

/-- `lowerUnits` fixes a sequence of fixed points of the mapping. -/
theorem lowerUnits_of_fixed (l : List Nat) (hl : ∀ v ∈ l, jsLowerUnit v = [v]) :
    lowerUnits l = l := by
  induction l with
  | nil => rfl
  | cons u us ih =>
    rw [lowerUnits_cons, hl u (by simp), ih (fun v hv => hl v (by simp [hv]))]
    rfl

/-- Lower-casing a whole sequence is idempotent. -/
theorem lowerUnits_idem (l : List Nat) : lowerUnits (lowerUnits l) = lowerUnits l := by
  induction l with
  | nil => rfl
  | cons u us ih =>
    rw [lowerUnits_cons, lowerUnits_append, ih,
      lowerUnits_of_fixed _ (fun v hv => jsLowerUnit_fixed u v hv)]

/-- Membership inversion for `lowerUnits`. -/
theorem lowerUnits_mem (l : List Nat) (v : Nat) (hv : v ∈ lowerUnits l) :
    ∃ u ∈ l, v ∈ jsLowerUnit u := by
  induction l with
  | nil => simp [lowerUnits] at hv
  | cons u us ih =>
    rw [lowerUnits_cons] at hv
    rcases List.mem_append.mp hv with h | h
    · exact ⟨u, by simp, h⟩
    · rcases ih h with ⟨w, hw, hvw⟩
      exact ⟨w, by simp [hw], hvw⟩

/-- Everything in the output of unit-level whitespace collapsing is
non-whitespace. -/
theorem collapseWsU_no_ws (l : List Nat) :
    ∀ b v, v ∈ collapseWsU b l → isWsCode v = false := by
  induction l with
  | nil => intro b v hv; simp [collapseWsU] at hv
  | cons u us ih =>
    intro b v hv
    simp only [collapseWsU] at hv
    by_cases h : isWsCode u = true
    · cases b <;> simp only [h, ite_true, ite_false] at hv
      · rcases List.mem_cons.mp hv with rfl | hv
        · decide
        · exact ih true v hv
      · exact ih true v hv
    · simp only [Bool.not_eq_true] at h
      simp only [h, Bool.false_eq_true, ite_false] at hv
      rcases List.mem_cons.mp hv with rfl | hv
      · exact h
      · exact ih false v hv

/-- Unit-level whitespace collapsing fixes a whitespace-free sequence. -/
theorem collapseWsU_eq_self (l : List Nat) (hl : ∀ v ∈ l, isWsCode v = false) :
    ∀ b, collapseWsU b l = l := by
  induction l with
  | nil => intro b; simp [collapseWsU]
  | cons u us ih =>
    intro b
    have hu : isWsCode u = false := hl u (by simp)
    simp only [collapseWsU, hu, Bool.false_eq_true, ite_false]
    rw [ih (fun v hv => hl v (by simp [hv]))]

/-- On characters below 128 the UTF-16 encoding is one unit per
character. -/
theorem utf16_ascii (l : List Char) (h : ∀ c ∈ l, c.toNat < 128) :
    (l.map utf16Char).flatten = l.map Char.toNat := by
  induction l with
  | nil => rfl
  | cons c cs ih =>
    have hc : utf16Char c = [c.toNat] := by
      unfold utf16Char
      rw [if_pos]
      have := h c (by simp)
      omega
    simp only [List.map_cons, List.flatten_cons, hc]
    rw [ih (fun d hd => h d (by simp [hd]))]
    rfl

/-- Character-level and unit-level whitespace collapsing agree under the
code-point projection (the whitespace class is the same at both levels
and the hyphen is unit 45). -/
theorem collapse_bridge (l : List Char) :
    ∀ b, (collapseWsAux b l).map Char.toNat = collapseWsU b (l.map Char.toNat) := by
  induction l with
  | nil => intro b; rfl
  | cons c cs ih =>
    intro b
    simp only [collapseWsAux, List.map_cons, collapseWsU]
    by_cases h : isWsCode c.toNat = true
    · have hw : isWsJS c = true := h
      cases b <;> (simp [hw, h, ih]; try rfl)
    · have hw : isWsJS c = false := by simpa [isWsJS] using h
      simp only [hw, h, Bool.false_eq_true, ite_false, List.map_cons, ih]

/-- On ASCII characters the character-level lower-casing matches the
unit-level mapping. -/
theorem lower_bridge (c : Char) (h : c.toNat < 128) :
    utf16Char (jsToLowerChar c) = jsLowerUnit c.toNat := by
  by_cases hu : isUpperA c = true
  · have hb := isUpperA_bounds c hu
    have ht : (Char.ofNat (c.toNat + 32)).toNat = c.toNat + 32 :=
      toNat_ofNat_small _ (by omega)
    unfold jsToLowerChar utf16Char jsLowerUnit
    rw [if_pos hu, if_pos (by omega : 65 ≤ c.toNat ∧ c.toNat ≤ 90), ht, if_pos (by omega)]
  · have hb : ¬(65 ≤ c.toNat ∧ c.toNat ≤ 90) := by
      simpa [isUpperA] using hu
    unfold jsToLowerChar utf16Char jsLowerUnit
    rw [if_neg hu, if_pos (by omega), if_neg hb, if_neg (by omega), if_neg (by omega)]

/-- Every character in the collapsed output is a hyphen or comes from the
input (character level). -/
theorem collapseWsAux_mem (l : List Char) :
    ∀ b c, c ∈ collapseWsAux b l → c = '-' ∨ c ∈ l := by
  induction l with
  | nil => intro b c hc; simp [collapseWsAux] at hc
  | cons d ds ih =>
    intro b c hc
    simp only [collapseWsAux] at hc
    by_cases h : isWsJS d = true
    · cases b <;> simp only [h, ite_true, ite_false] at hc
      · rcases List.mem_cons.mp hc with rfl | hc
        · exact Or.inl rfl
        · rcases ih true c hc with h2 | h2
          · exact Or.inl h2
          · exact Or.inr (by simp [h2])
      · rcases ih true c hc with h2 | h2
        · exact Or.inl h2
        · exact Or.inr (by simp [h2])
    · simp only [Bool.not_eq_true] at h
      simp only [h, Bool.false_eq_true, ite_false] at hc
      rcases List.mem_cons.mp hc with rfl | hc
      · exact Or.inr (by simp)
      · rcases ih false c hc with h2 | h2
        · exact Or.inl h2
        · exact Or.inr (by simp [h2])

/-- The character-level `canonicalize` used by the name-matching model is
the ASCII restriction of the unit-level `canonicalizeUnits`: on names of
ASCII characters the two produce the same UTF-16 unit sequence. -/
theorem canonicalize_agrees_on_ascii (s : String) (h : ∀ c ∈ s.data, c.toNat < 128) :
    utf16 (canonicalize s) = canonicalizeUnits (utf16 s) := by
  have hTake : ∀ c ∈ s.data.take MAX_CHANNEL_NAME_LENGTH, c.toNat < 128 :=
    fun c hc => h c (List.take_subset _ _ hc)
  have hX : ∀ c ∈ collapseWsAux false (s.data.take MAX_CHANNEL_NAME_LENGTH), c.toNat < 128 := by
    intro c hc
    rcases collapseWsAux_mem _ false c hc with rfl | hc2
    · decide
    · exact hTake c hc2
  show ((((collapseWsAux false (s.data.take MAX_CHANNEL_NAME_LENGTH)).map
      jsToLowerChar)).map utf16Char).flatten = canonicalizeUnits (utf16 s)
  rw [List.map_map]
  have hpt : (collapseWsAux false (s.data.take MAX_CHANNEL_NAME_LENGTH)).map
      (utf16Char ∘ jsToLowerChar) =
      (collapseWsAux false (s.data.take MAX_CHANNEL_NAME_LENGTH)).map
      (jsLowerUnit ∘ Char.toNat) :=
    List.map_congr_left (fun c hc => lower_bridge c (hX c hc))
  rw [hpt, ← List.map_map]
  show lowerUnits ((collapseWsAux false (s.data.take MAX_CHANNEL_NAME_LENGTH)).map
      Char.toNat) = canonicalizeUnits (utf16 s)
  rw [collapse_bridge, List.map_take]
  show canonicalizeUnits (s.data.map Char.toNat) = canonicalizeUnits (utf16 s)
  rw [utf16, utf16_ascii _ h]

/-- Counterexample to claim C4: at the name made of 21 copies of U+0130
the canonicalization is not idempotent.  ECMAScript lower-cases each
U+0130 to the two units i + U+0307, so the first pass yields 42 units and
a second pass truncates them back to 21, changing the result. -/
theorem canonicalizeUnits_not_idempotent :
    canonicalizeUnits (canonicalizeUnits unitsIDot) ≠ canonicalizeUnits unitsIDot ∧
    (canonicalizeUnits unitsIDot).length = 42 ∧
    (canonicalizeUnits (canonicalizeUnits unitsIDot)).length = 21 :=
  ⟨by decide, by decide, by decide⟩

/-- Claim C4 (amended): the channel-name canonicalization is idempotent at
every name whose canonicalized form still fits the 21-unit bound —
equivalently, whenever lower-casing does not push the truncated name past
21 UTF-16 units.  At names such as 21 copies of U+0130 the bound is left
and a second application truncates again.  The proof uses only that every
lowercase output unit is a fixed point of the mapping and never
whitespace, properties that the full ECMAScript mapping also has. -/
theorem canonicalizeUnits_idem_within_bound (s : List Nat)
    (h : (canonicalizeUnits s).length ≤ MAX_CHANNEL_NAME_LENGTH) :
    canonicalizeUnits (canonicalizeUnits s) = canonicalizeUnits s := by
  unfold canonicalizeUnits at h ⊢
  rw [List.take_of_length_le h]
  rw [collapseWsU_eq_self _ (fun v hv =>
    (lowerUnits_mem _ v hv).elim (fun u hu =>
      jsLowerUnit_not_ws u v (collapseWsU_no_ws _ false u hu.1) hu.2)) false]
  exact lowerUnits_idem _

/-- Concrete instance of the amended idempotence claim at the ASCII name
`My Room`. -/
theorem canonicalizeUnits_idem_within_bound_witness :
    (canonicalizeUnits unitsMyRoom).length ≤ MAX_CHANNEL_NAME_LENGTH ∧
    canonicalizeUnits (canonicalizeUnits unitsMyRoom) = canonicalizeUnits unitsMyRoom :=
  ⟨by decide, canonicalizeUnits_idem_within_bound unitsMyRoom (by decide)⟩

